import Mathlib

/-!
Verification of the `isnt_that_odd` command-line tool
(`src/isnt_that_odd/cli.py`).

The development embeds the two functions of `cli.py`:

* `parse_number` — best-effort numeric coercion of the raw CLI argument
  (Python: `float(value)` followed by an `is_integer` check, with the
  `ValueError` of a failed conversion caught and the original string
  returned);
* `main` — argument resolution, the single call to the external
  `is_even` inference client, result formatting, exit-code selection.

Modelling conventions:

* Python values of type `int | float | str` become the inductive `PyVal`.
* Python `float` string conversion is embedded at two levels of value
  fidelity over one shared grammar. The accepted grammar — optional
  surrounding whitespace, an optional sign, `inf` / `infinity` / `nan`
  in any letter case, or a decimal literal with optional fraction,
  optional exponent and PEP-515 underscores between digits — follows
  CPython; digits are ASCII.
  The first level (`pyFloatOfString`) keeps the exact decimal value of
  a finite literal: a canonical pair mantissa times ten to the
  exponent, with the mantissa not a multiple of ten unless the value
  is zero, so that two literals receive the same representative
  exactly when they denote the same rational (`DecFloat.toRat` gives
  the denoted value, `canonDec_toRat` shows canonicalisation preserves
  it). This level serves the claims that depend only on which strings
  are accepted and on the int/float/str shape of the result.
  The second level (`pyFloat64OfString`, `parse_number_f64`) rounds
  the exact decimal to an IEEE 754 binary64 value — round to nearest,
  ties to even, with subnormals, underflow to zero and overflow to
  infinity, as CPython float(str) is correctly rounded — and serves
  the claim about the integer value the program returns. Negative
  zero is collapsed to positive zero; `is_integer` and `int()` do not
  distinguish them.
* Exceptions become `Except PyError`; the external `is_even` call is an
  abstract oracle that returns a boolean, raises a generic exception,
  or raises `KeyboardInterrupt`.
* The process environment is passed explicitly as a map so that claims
  about environment-variable consumption can be stated; the option
  layer of `cli.py` (plain `argparse.add_argument` calls) performs no
  environment lookup.
* Rendering of finite floats in output lines abstracts the CPython
  digit algorithm by printing the exact mantissa and exponent; no
  claim depends on the rendered digits, only on the markers, the line
  structure and the exit codes.
-/

set_option exponentiation.threshold 3000
set_option maxRecDepth 8000

/-- Python exception classes that the embedded code can raise. -/
inductive PyError
  | valueError (msg : String)
  | overflowError (msg : String)
deriving DecidableEq, Repr

/-- An exact decimal value `m * 10 ^ e`, kept canonical: `m` is not a
multiple of ten unless the value is zero, in which case `m = 0` and
`e = 0`. Canonicity makes structural equality coincide with equality
of the denoted rationals. -/
structure DecFloat where
  m : ℤ
  e : ℤ
deriving DecidableEq, Repr

/-- The rational denoted by a `DecFloat`. -/
def DecFloat.toRat (d : DecFloat) : ℚ :=
  (d.m : ℚ) * (10 : ℚ) ^ d.e

/-- Strip factors of ten from the mantissa into the exponent; `fuel`
bounds the number of steps. -/
def stripTens : ℕ → ℤ → ℤ → DecFloat
  | 0, m, e => { m := m, e := e }
  | fuel + 1, m, e => if m % 10 = 0 then stripTens fuel (m / 10) (e + 1) else { m := m, e := e }

/-- Canonical `DecFloat` denoting `m * 10 ^ e`. -/
def canonDec (m e : ℤ) : DecFloat :=
  if m = 0 then { m := 0, e := 0 } else stripTens m.natAbs m e

/-- The value of a Python `float`: a finite value (kept exact as a
canonical decimal), a signed infinity, or `nan`. -/
inductive PyFloatVal
  | finite (d : DecFloat)
  | inf (neg : Bool)
  | nan
deriving DecidableEq, Repr

/-- A Python value of type `int | float | str`, the result type of
`parse_number`. -/
inductive PyVal
  | int (n : ℤ)
  | float (v : PyFloatVal)
  | str (s : String)
deriving DecidableEq, Repr

instance {ε α : Type} [DecidableEq ε] [DecidableEq α] : DecidableEq (Except ε α) := fun a b =>
  match a, b with
  | Except.ok x, Except.ok y =>
    if h : x = y then isTrue (by rw [h]) else isFalse (fun c => by cases c; exact h rfl)
  | Except.error e, Except.error f =>
    if h : e = f then isTrue (by rw [h]) else isFalse (fun c => by cases c; exact h rfl)
  | Except.ok _, Except.error _ => isFalse (fun c => Except.noConfusion c)
  | Except.error _, Except.ok _ => isFalse (fun c => Except.noConfusion c)

/-- Whitespace characters stripped by Python `float(str)` (ASCII). -/
def isSpaceChar (c : Char) : Bool :=
  c = ' ' || c = '\t' || c = '\n' || c = '\r' || c = Char.ofNat 11 || c = Char.ofNat 12

/-- Strip leading and trailing whitespace, as `float(str)` does. -/
def stripWs (l : List Char) : List Char :=
  ((l.dropWhile isSpaceChar).reverse.dropWhile isSpaceChar).reverse

/-- Consume an optional leading sign; return the sign and the rest. -/
def splitSign : List Char → Int × List Char
  | '+' :: rest => (1, rest)
  | '-' :: rest => (-1, rest)
  | l => (1, l)

/-- Parse a maximal digit run in which underscores may stand only
between two digits (PEP 515). The input must start with a digit;
returns the digits with underscores removed, and the remainder.
Returns `none` when the run is malformed (misplaced underscore) or the
input does not start with a digit. -/
def digitRun : List Char → Option (List Char × List Char)
  | [] => none
  | c :: '_' :: cs2 =>
    if c.isDigit then
      match digitRun cs2 with
      | some (ds, rest) => some (c :: ds, rest)
      | none => none
    else none
  | c :: cs =>
    if c.isDigit then
      match digitRun cs with
      | some (ds, rest) => some (c :: ds, rest)
      | none => some ([c], cs)
    else none
termination_by structural l => l

/-- Numeric value of a list of ASCII digits. -/
def digitsVal (ds : List Char) : ℕ :=
  ds.foldl (fun a c => 10 * a + (c.toNat - 48)) 0

/-- Parse the optional exponent part `(e|E)[+|-]digits`; returns the
exponent and the remainder, `0` when no exponent marker is present. -/
def parseExp : List Char → Option (Int × List Char)
  | [] => some (0, [])
  | c :: cs =>
    if c = 'e' || c = 'E' then
      match cs with
      | '+' :: cs2 =>
        match digitRun cs2 with
        | some (ds, rest) => some ((digitsVal ds : Int), rest)
        | none => none
      | '-' :: cs2 =>
        match digitRun cs2 with
        | some (ds, rest) => some (-(digitsVal ds : Int), rest)
        | none => none
      | cs2 =>
        match digitRun cs2 with
        | some (ds, rest) => some ((digitsVal ds : Int), rest)
        | none => none
    else some (0, c :: cs)

/-- Exact value of a signed decimal literal with integer part `ip`,
fractional part `fp` and exponent `e`: the digits `ip ++ fp` read as
one integer, scaled by ten to the `e - fp.length`. -/
def decValue (sign : Int) (ip fp : List Char) (e : Int) : DecFloat :=
  canonDec (sign * (digitsVal (ip ++ fp) : Int)) (e - fp.length)

/-- Parse a (sign-stripped) decimal literal: `digits[.digits][exp]`,
`digits.[exp]` or `.digits[exp]`, the whole input consumed. -/
def parseDecimalLit (sign : Int) (l : List Char) : Option PyFloatVal :=
  match l with
  | '.' :: rest =>
    match digitRun rest with
    | some (fp, rest2) =>
      match parseExp rest2 with
      | some (e, []) => some (PyFloatVal.finite (decValue sign [] fp e))
      | _ => none
    | none => none
  | _ =>
    match digitRun l with
    | some (ip, rest) =>
      match rest with
      | '.' :: rest2 =>
        match digitRun rest2 with
        | some (fp, rest3) =>
          match parseExp rest3 with
          | some (e, []) => some (PyFloatVal.finite (decValue sign ip fp e))
          | _ => none
        | none =>
          match parseExp rest2 with
          | some (e, []) => some (PyFloatVal.finite (decValue sign ip [] e))
          | _ => none
      | _ =>
        match parseExp rest with
        | some (e, []) => some (PyFloatVal.finite (decValue sign ip [] e))
        | _ => none
    | none => none

/-- Python `float(str)` conversion: strip whitespace, take an optional
sign, accept `inf`/`infinity`/`nan` in any letter case or a decimal
literal. `none` models the `ValueError` of a failed conversion. -/
def pyFloatOfString (s : String) : Option PyFloatVal :=
  let l := stripWs s.data
  let sl := splitSign l
  let low := sl.2.map Char.toLower
  if low = "inf".data || low = "infinity".data then some (PyFloatVal.inf (sl.1 < 0))
  else if low = "nan".data then some PyFloatVal.nan
  else parseDecimalLit sl.1 sl.2

/-- `float(value)` as an exception-raising call: a failed conversion of
a string raises `ValueError`. -/
def pyFloatExc (s : String) : Except PyError PyFloatVal :=
  match pyFloatOfString s with
  | some v => Except.ok v
  | none => Except.error (PyError.valueError "could not convert string to float")

/-- Python `float.is_integer`: true for a finite value with no
fractional part, false for infinities and `nan`. A canonical decimal
is integral exactly when its exponent is nonnegative: with a negative
exponent a ten remains in the denominator, since ten does not divide
the mantissa. -/
def floatIsInteger : PyFloatVal → Bool
  | PyFloatVal.finite d => decide (0 ≤ d.e)
  | PyFloatVal.inf _ => false
  | PyFloatVal.nan => false

/-- Python `int(float)`: truncation toward zero for finite values;
`OverflowError` on infinities, `ValueError` on `nan`. -/
def pyIntOfFloat : PyFloatVal → Except PyError Int
  | PyFloatVal.finite d =>
    Except.ok (if 0 ≤ d.e then d.m * 10 ^ d.e.toNat else d.m.tdiv (10 ^ (-d.e).toNat))
  | PyFloatVal.inf _ => Except.error (PyError.overflowError "cannot convert float infinity to integer")
  | PyFloatVal.nan => Except.error (PyError.valueError "cannot convert float NaN to integer")

/-- `parse_number` from `cli.py`: try `float(value)`; on success return
`int(float_val)` when the value is integral, else the float; a
`ValueError` is caught and the original string returned. -/
def parse_number (value : String) : Except PyError PyVal :=
  match pyFloatExc value with
  | Except.ok fv =>
    if floatIsInteger fv then
      match pyIntOfFloat fv with
      | Except.ok n => Except.ok (PyVal.int n)
      | Except.error e => Except.error e
    else Except.ok (PyVal.float fv)
  | Except.error (PyError.valueError _) => Except.ok (PyVal.str value)
  | Except.error e => Except.error e

example : parse_number "42" = Except.ok (PyVal.int 42) := by decide
example : parse_number "-17" = Except.ok (PyVal.int (-17)) := by decide
example : parse_number "10.0" = Except.ok (PyVal.int 10) := by decide
example : parse_number "3.14" = Except.ok (PyVal.float (PyFloatVal.finite ⟨314, -2⟩)) := by decide
example : parse_number "hello" = Except.ok (PyVal.str "hello") := by decide
example : parse_number "42abc" = Except.ok (PyVal.str "42abc") := by decide
example : parse_number "" = Except.ok (PyVal.str "") := by decide
example : parse_number "inf" = Except.ok (PyVal.float (PyFloatVal.inf false)) := by decide
example : parse_number "-Infinity" = Except.ok (PyVal.float (PyFloatVal.inf true)) := by decide
example : parse_number "NaN" = Except.ok (PyVal.float PyFloatVal.nan) := by decide
example : parse_number " 1_0e1 " = Except.ok (PyVal.int 100) := by decide
example : parse_number "1_" = Except.ok (PyVal.str "1_") := by decide
example : parse_number ".5" = Except.ok (PyVal.float (PyFloatVal.finite ⟨5, -1⟩)) := by decide
example : parse_number "1e-2" = Except.ok (PyVal.float (PyFloatVal.finite ⟨1, -2⟩)) := by decide
example : parse_number "0.25" = Except.ok (PyVal.float (PyFloatVal.finite ⟨25, -2⟩)) := by decide
example : parse_number "2.50" = Except.ok (PyVal.float (PyFloatVal.finite ⟨25, -1⟩)) := by decide

/-- Stripping tens preserves the denoted rational. -/
theorem stripTens_toRat (fuel : ℕ) : ∀ m e : ℤ, (stripTens fuel m e).toRat = DecFloat.toRat ⟨m, e⟩ := by
  induction fuel with
  | zero => intro m e; rfl
  | succ fuel ih =>
    intro m e
    by_cases h : m % 10 = 0
    · have h10 : (10 : ℤ) ∣ m := Int.dvd_of_emod_eq_zero h
      have hm : m / 10 * 10 = m := Int.ediv_mul_cancel h10
      simp only [stripTens, h, if_pos, ih]
      simp only [DecFloat.toRat]
      rw [zpow_add_one₀ (by norm_num : (10 : ℚ) ≠ 0)]
      have hq : ((m / 10 : ℤ) : ℚ) * 10 = (m : ℚ) := by exact_mod_cast hm
      calc ((m / 10 : ℤ) : ℚ) * (10 ^ e * 10) = ((m / 10 : ℤ) : ℚ) * 10 * 10 ^ e := by ring
        _ = (m : ℚ) * 10 ^ e := by rw [hq]
    · simp [stripTens, h]

/-- Canonicalisation preserves the denoted rational. -/
theorem canonDec_toRat (m e : ℤ) : (canonDec m e).toRat = (m : ℚ) * (10 : ℚ) ^ e := by
  unfold canonDec
  by_cases h : m = 0
  · simp [h, DecFloat.toRat]
  · rw [if_neg h, stripTens_toRat]
    rfl

/-! ## Binary64 value level

CPython converts a decimal literal to the nearest IEEE 754 binary64
value (round to nearest, ties to even). The following definitions
round the exact decimal value of the accepted literal to binary64 with
pure integer arithmetic, and re-embed `parse_number` at this value
fidelity as `parse_number_f64`: same grammar, same control flow, but
`is_integer` and `int()` applied to the rounded double. -/

/-- Floor of the base-two logarithm, by structural recursion on a fuel
bound so the kernel can evaluate it (`natLog2 n` uses fuel `n`). -/
def log2Fuel : ℕ → ℕ → ℕ
  | 0, _ => 0
  | fuel + 1, n => if n < 2 then 0 else log2Fuel fuel (n / 2) + 1

/-- `natLog2 n` is the floor of the base-two logarithm of `n` for
`0 < n`. -/
def natLog2 (n : ℕ) : ℕ := log2Fuel n n

/-- Round the fraction `num / den` to the nearest integer, ties to
even (`den > 0`). -/
def nearestEven (num den : ℕ) : ℕ :=
  let d := num / den
  let r := num % den
  if 2 * r < den then d
  else if den < 2 * r then d + 1
  else if d % 2 = 0 then d else d + 1

/-- The unique `e` with `2 ^ e ≤ a / b < 2 ^ (e + 1)` for positive
`a`, `b`: the bit-length difference, corrected by one exact
comparison. -/
def ratLog2 (a b : ℕ) : ℤ :=
  let k : ℤ := (natLog2 a : ℤ) - (natLog2 b : ℤ)
  if b * 2 ^ (max 0 k).toNat ≤ a * 2 ^ (max 0 (-k)).toNat then k else k - 1

/-- The value of a CPython `float` as an IEEE 754 binary64 datum: a
finite value `± m * 2 ^ q` (normal with `2 ^ 52 ≤ m < 2 ^ 53`,
subnormal with `q = -1074`, zero as `m = 0, q = 0`), a signed
infinity, or `nan`. Negative zero is collapsed to positive zero. -/
inductive PyF64
  | finite (sign : Bool) (m : ℕ) (q : ℤ)
  | inf (neg : Bool)
  | nan
deriving DecidableEq, Repr

/-- Round the positive rational `a / b` to binary64, round to nearest
with ties to even: choose the grid exponent from `ratLog2` clamped at
the subnormal limit `-1074`, round the scaled significand, renormalise
a carry into `2 ^ 53`, and map results at or beyond `2 ^ 1024` to
infinity (the IEEE overflow rule, since rounding as if the exponent
were unbounded and comparing with `2 ^ 1024` decides overflow,
including the ties-to-even case at the largest-finite midpoint). -/
def roundF64 (sign : Bool) (a b : ℕ) : PyF64 :=
  let e : ℤ := ratLog2 a b
  let q0 : ℤ := max (e - 52) (-1074)
  let num : ℕ := a * 2 ^ (max 0 (-q0)).toNat
  let den : ℕ := b * 2 ^ (max 0 q0).toNat
  let m0 : ℕ := nearestEven num den
  let p : ℕ × ℤ := if m0 = 2 ^ 53 then (2 ^ 52, q0 + 1) else (m0, q0)
  if p.1 = 0 then PyF64.finite false 0 0
  else if 972 ≤ p.2 then PyF64.inf sign
  else PyF64.finite sign p.1 p.2

/-- The binary64 value of an exact decimal `m * 10 ^ e`. -/
def DecFloat.toF64 (d : DecFloat) : PyF64 :=
  if d.m = 0 then PyF64.finite false 0 0
  else if 0 ≤ d.e then roundF64 (d.m < 0) (d.m.natAbs * 10 ^ d.e.toNat) 1
  else roundF64 (d.m < 0) d.m.natAbs (10 ^ (-d.e).toNat)

/-- Binary64 value of a parsed float: finite decimals are rounded,
infinities and `nan` carry over. -/
def pyFloatValToF64 : PyFloatVal → PyF64
  | PyFloatVal.finite d => d.toF64
  | PyFloatVal.inf b => PyF64.inf b
  | PyFloatVal.nan => PyF64.nan

/-- Python `float(str)` at binary64 fidelity: the shared literal
grammar followed by correct rounding of the denoted value. -/
def pyFloat64OfString (s : String) : Option PyF64 :=
  (pyFloatOfString s).map pyFloatValToF64

/-- `float(value)` at binary64 fidelity as an exception-raising call:
a failed conversion of a string raises `ValueError`. -/
def pyFloat64Exc (s : String) : Except PyError PyF64 :=
  match pyFloat64OfString s with
  | some v => Except.ok v
  | none => Except.error (PyError.valueError "could not convert string to float")

/-- Python `float.is_integer` on a binary64 value: a finite
`± m * 2 ^ q` is integral when `q ≥ 0` or `2 ^ (-q)` divides `m`;
infinities and `nan` are not integral. -/
def f64IsInteger : PyF64 → Bool
  | PyF64.finite _ m q => decide (0 ≤ q) || decide (m % 2 ^ (-q).toNat = 0)
  | PyF64.inf _ => false
  | PyF64.nan => false

/-- Python `int(float)` on a finite binary64 value: truncation toward
zero, computed on the magnitude. -/
def f64IntValue : PyF64 → ℤ
  | PyF64.finite sign m q =>
    let mag : ℕ := if 0 ≤ q then m * 2 ^ q.toNat else m / 2 ^ (-q).toNat
    if sign then -(mag : ℤ) else (mag : ℤ)
  | PyF64.inf _ => 0
  | PyF64.nan => 0

/-- Python `int(float)` as an exception-raising call: `OverflowError`
on infinities, `ValueError` on `nan`. -/
def f64ToIntExc : PyF64 → Except PyError ℤ
  | PyF64.finite sign m q => Except.ok (f64IntValue (PyF64.finite sign m q))
  | PyF64.inf _ => Except.error (PyError.overflowError "cannot convert float infinity to integer")
  | PyF64.nan => Except.error (PyError.valueError "cannot convert float NaN to integer")

/-- The rational denoted by a finite binary64 value (zero on
infinities and `nan`, where no rational is denoted). -/
def f64ToRat : PyF64 → ℚ
  | PyF64.finite sign m q => (if sign then (-1 : ℚ) else 1) * (m : ℚ) * (2 : ℚ) ^ q
  | PyF64.inf _ => 0
  | PyF64.nan => 0

/-- A Python value of type `int | float | str` with the float at
binary64 fidelity. -/
inductive PyVal64
  | int (n : ℤ)
  | float (v : PyF64)
  | str (s : String)
deriving DecidableEq, Repr

/-- `parse_number` from `cli.py` at binary64 value fidelity: try
`float(value)`; on success return `int(float_val)` when the double is
integral, else the double; a `ValueError` is caught and the original
string returned. -/
def parse_number_f64 (value : String) : Except PyError PyVal64 :=
  match pyFloat64Exc value with
  | Except.ok fv =>
    if f64IsInteger fv then
      match f64ToIntExc fv with
      | Except.ok n => Except.ok (PyVal64.int n)
      | Except.error e => Except.error e
    else Except.ok (PyVal64.float fv)
  | Except.error (PyError.valueError _) => Except.ok (PyVal64.str value)
  | Except.error e => Except.error e

example : pyFloat64OfString "0.5" = some (PyF64.finite false 4503599627370496 (-53)) := by decide
example : pyFloat64OfString "0.1" = some (PyF64.finite false 7205759403792794 (-56)) := by decide
example : pyFloat64OfString "1e-323" = some (PyF64.finite false 2 (-1074)) := by decide
example : parse_number_f64 "1e400" = Except.ok (PyVal64.float (PyF64.inf false)) := by decide
example : parse_number_f64 "-1e400" = Except.ok (PyVal64.float (PyF64.inf true)) := by decide
example : parse_number_f64 "1e-400" = Except.ok (PyVal64.int 0) := by decide
example : parse_number_f64 "9007199254740993" = Except.ok (PyVal64.int 9007199254740992) := by decide
example : parse_number_f64 "4503599627370497.5" = Except.ok (PyVal64.int 4503599627370498) := by decide
example : parse_number_f64 "3.14" = Except.ok (PyVal64.float (PyF64.finite false 7070651414971679 (-51))) := by decide
example : parse_number_f64 "hello" = Except.ok (PyVal64.str "hello") := by decide
example : parse_number_f64 "nan" = Except.ok (PyVal64.float PyF64.nan) := by decide

/-! ## The command-line entry point `main` -/

/-- The process environment, a map from variable names to values. -/
def PEnv : Type := String → Option String

/-- The command line as `argparse` hands it to `main`: the required
positional `number` plus the optional flags. A missing optional flag
is `none`; `--verbose` is a boolean switch. -/
structure CLIFlags where
  number : String
  model : Option String
  api_key : Option String
  base_url : Option String
  verbose : Bool
deriving DecidableEq

/-- The `parsed_args` namespace produced by `parser.parse_args`. -/
structure ParsedArgs where
  number : String
  model : String
  api_key : Option String
  base_url : Option String
  verbose : Bool
deriving DecidableEq

/-- Resolution of the parsed flags (`cli.py` lines 43-64): `--model`
defaults to `"gpt-3.5-turbo"`; `--api-key` and `--base-url` default to
`None`. The `add_argument` calls consult no environment variable, so
the environment `env` does not enter the result. -/
def resolveArgs (env : PEnv) (f : CLIFlags) : ParsedArgs :=
  { number := f.number
    model := f.model.getD "gpt-3.5-turbo"
    api_key := f.api_key
    base_url := f.base_url
    verbose := f.verbose }

/-- Outcome of the external `is_even` call: a boolean judgment, a
`KeyboardInterrupt`, or a generic exception with message `msg`. -/
inductive OracleOutcome
  | ok (b : Bool)
  | keyboardInterrupt
  | exc (msg : String)
deriving DecidableEq

/-- The external `is_even` inference client, abstract in its behaviour:
it receives the normalized number, the model name, the optional API
key and the optional base URL. -/
def Oracle : Type := PyVal → String → Option String → Option String → OracleOutcome

/-- Observable result of one run of `main`: the returned exit code and
the lines printed to standard output and standard error. -/
structure RunResult where
  exitCode : ℕ
  stdout : List String
  stderr : List String
deriving DecidableEq

/-- Python `str()` of a `parse_number` result, as used in the output
f-strings. The rendering of finite floats abstracts the CPython digit
algorithm by printing the exact mantissa and exponent. -/
def pyStr : PyVal → String
  | PyVal.int n => toString n
  | PyVal.float (PyFloatVal.finite d) => toString d.m ++ "e" ++ toString d.e
  | PyVal.float (PyFloatVal.inf neg) => if neg then "-inf" else "inf"
  | PyVal.float PyFloatVal.nan => "nan"
  | PyVal.str s => s

/-- Verbose diagnostic line `🔍 Checking if {number} is even...`. -/
def checkingLine (n : PyVal) : String := "🔍 Checking if " ++ pyStr n ++ " is even..."

/-- Verbose diagnostic line `🤖 Using model: {model}`. -/
def modelLine (m : String) : String := "🤖 Using model: " ++ m

/-- Success line `✅ {number} is EVEN`. -/
def evenLine (n : PyVal) : String := "✅ " ++ pyStr n ++ " is EVEN"

/-- Success line `❌ {number} is ODD`. -/
def oddLine (n : PyVal) : String := "❌ " ++ pyStr n ++ " is ODD"

/-- Cancellation line printed on `KeyboardInterrupt`. -/
def cancelLine : String := "\n⚠️  Operation cancelled by user"

/-- Error line `❌ Error: {e}` printed to standard error. -/
def errorLine (m : String) : String := "❌ Error: " ++ m

/-- Stack trace printed by `traceback.print_exc()` in verbose mode,
abstracted to one line carrying the exception message. -/
def traceLine (m : String) : String := "Traceback (most recent call last): " ++ m

/-- Message text of an embedded Python exception. -/
def pyErrMsg : PyError → String
  | PyError.valueError m => m
  | PyError.overflowError m => m

/-- `main` from `cli.py` (lines 25-99): resolve the arguments, run
`parse_number`, echo diagnostics when verbose, call `is_even`, print
the EVEN/ODD line and return 0; on `KeyboardInterrupt` print the
cancellation line and return 130; on a generic exception print the
error line to standard error — plus the trace when verbose — and
return 1. -/
def mainRun (oracle : Oracle) (env : PEnv) (f : CLIFlags) : RunResult :=
  let a := resolveArgs env f
  match parse_number a.number with
  | Except.error err =>
    { exitCode := 1
      stdout := []
      stderr := errorLine (pyErrMsg err) :: (if a.verbose then [traceLine (pyErrMsg err)] else []) }
  | Except.ok number =>
    let pre := if a.verbose then [checkingLine number, modelLine a.model] else []
    match oracle number a.model a.api_key a.base_url with
    | OracleOutcome.ok true =>
      { exitCode := 0, stdout := pre ++ [evenLine number], stderr := [] }
    | OracleOutcome.ok false =>
      { exitCode := 0, stdout := pre ++ [oddLine number], stderr := [] }
    | OracleOutcome.keyboardInterrupt =>
      { exitCode := 130, stdout := pre ++ [cancelLine], stderr := [] }
    | OracleOutcome.exc m =>
      { exitCode := 1
        stdout := pre
        stderr := errorLine m :: (if a.verbose then [traceLine m] else []) }

/-- The argument tuple `main` hands to the `is_even` call
(`cli.py` lines 75-80). -/
structure IsEvenArgs where
  number : PyVal
  model : String
  api_key : Option String
  base_url : Option String
deriving DecidableEq

/-- Total evaluation of `parse_number` (which never raises). -/
def parseNumberValue (s : String) : PyVal :=
  match parse_number s with
  | Except.ok v => v
  | Except.error _ => PyVal.str s

/-- The arguments of the single `is_even` call made by `main`. -/
def isEvenArgsOf (env : PEnv) (f : CLIFlags) : IsEvenArgs :=
  let a := resolveArgs env f
  { number := parseNumberValue a.number
    model := a.model
    api_key := a.api_key
    base_url := a.base_url }

/-! ## Helper lemmas -/

theorem pyIntOfFloat_isOk (fv : PyFloatVal) (h : floatIsInteger fv = true) :
    ∃ n, pyIntOfFloat fv = Except.ok n := by
  cases fv with
  | finite d => exact ⟨_, rfl⟩
  | inf neg => simp [floatIsInteger] at h
  | nan => simp [floatIsInteger] at h

theorem pyFloatExc_cases (s : String) :
    (∃ v, pyFloatExc s = Except.ok v) ∨
      pyFloatExc s = Except.error (PyError.valueError "could not convert string to float") := by
  unfold pyFloatExc
  cases pyFloatOfString s with
  | some v => exact Or.inl ⟨v, rfl⟩
  | none => exact Or.inr rfl

theorem parse_number_isOk (s : String) : ∃ v, parse_number s = Except.ok v := by
  rcases pyFloatExc_cases s with ⟨v, hv⟩ | hv
  · by_cases hi : floatIsInteger v
    · rcases pyIntOfFloat_isOk v hi with ⟨n, hn⟩
      exact ⟨PyVal.int n, by unfold parse_number; rw [hv]; simp [hi, hn]⟩
    · exact ⟨PyVal.float v, by unfold parse_number; rw [hv]; simp [hi]⟩
  · exact ⟨PyVal.str s, by unfold parse_number; rw [hv]⟩

theorem parse_number_eq_ok (s : String) : parse_number s = Except.ok (parseNumberValue s) := by
  obtain ⟨v, hv⟩ := parse_number_isOk s
  unfold parseNumberValue
  rw [hv]

/-- Unfolded description of `mainRun`: the single `is_even` call
receives exactly the tuple `isEvenArgsOf env f`, and each oracle
outcome determines the output lines and the exit code. -/
theorem mainRun_eq_spec (oracle : Oracle) (env : PEnv) (f : CLIFlags) :
    mainRun oracle env f =
      match oracle (isEvenArgsOf env f).number (isEvenArgsOf env f).model
          (isEvenArgsOf env f).api_key (isEvenArgsOf env f).base_url with
      | OracleOutcome.ok true =>
        { exitCode := 0
          stdout := (if f.verbose then
              [checkingLine (isEvenArgsOf env f).number, modelLine (isEvenArgsOf env f).model]
            else []) ++ [evenLine (isEvenArgsOf env f).number]
          stderr := [] }
      | OracleOutcome.ok false =>
        { exitCode := 0
          stdout := (if f.verbose then
              [checkingLine (isEvenArgsOf env f).number, modelLine (isEvenArgsOf env f).model]
            else []) ++ [oddLine (isEvenArgsOf env f).number]
          stderr := [] }
      | OracleOutcome.keyboardInterrupt =>
        { exitCode := 130
          stdout := (if f.verbose then
              [checkingLine (isEvenArgsOf env f).number, modelLine (isEvenArgsOf env f).model]
            else []) ++ [cancelLine]
          stderr := [] }
      | OracleOutcome.exc m =>
        { exitCode := 1
          stdout := (if f.verbose then
              [checkingLine (isEvenArgsOf env f).number, modelLine (isEvenArgsOf env f).model]
            else [])
          stderr := errorLine m :: (if f.verbose then [traceLine m] else []) } := by
  unfold mainRun isEvenArgsOf
  simp only [parse_number_eq_ok]
  rfl

theorem traceLine_ne_errorLine (m : String) : traceLine m ≠ errorLine m := by
  intro h
  have hl := congrArg String.length h
  rw [traceLine, errorLine, String.length_append, String.length_append] at hl
  have h1 : ("Traceback (most recent call last): ").length = 35 := by decide
  have h2 : ("❌ Error: ").length = 9 := by decide
  omega

/-- An empty process environment. -/
def noEnv : PEnv := fun _ => none

/-- A process environment carrying both the conventional credential
and endpoint variables. -/
def envWithCreds : PEnv := fun k =>
  if k = "OPENAI_API_KEY" then some "sk-env-credential"
  else if k = "OPENAI_BASE_URL" then some "http://env-endpoint" else none

/-- An invocation `isnt-that-odd 42` with no optional flag supplied. -/
def flags42 : CLIFlags :=
  { number := "42", model := none, api_key := none, base_url := none, verbose := false }

/-- An oracle whose `is_even` call always answers `True`. -/
def oracleTrue : Oracle := fun _ _ _ _ => OracleOutcome.ok true

/-- An oracle whose `is_even` call always raises a generic exception. -/
def oracleBoom : Oracle := fun _ _ _ _ => OracleOutcome.exc "API Error"

/-- An oracle whose `is_even` call is interrupted by the user. -/
def oracleCtrlC : Oracle := fun _ _ _ _ => OracleOutcome.keyboardInterrupt

/-! ## The claims -/

/-- Claim C1: whenever the external `is_even` call returns a boolean,
`main` returns exit code 0; when the boolean is true it prints the
EVEN-marked line for the normalized number to standard output, when it
is false the ODD-marked line, and nothing goes to standard error. -/
theorem main_even_odd_output (oracle : Oracle) (env : PEnv) (f : CLIFlags) (b : Bool)
    (h : oracle (isEvenArgsOf env f).number (isEvenArgsOf env f).model
      (isEvenArgsOf env f).api_key (isEvenArgsOf env f).base_url = OracleOutcome.ok b) :
    (mainRun oracle env f).exitCode = 0 ∧
    (if b then evenLine (isEvenArgsOf env f).number else oddLine (isEvenArgsOf env f).number) ∈
      (mainRun oracle env f).stdout ∧
    (mainRun oracle env f).stderr = [] := by
  rw [mainRun_eq_spec, h]
  cases b <;> simp

/-- Witness for C1 at the invocation `isnt-that-odd 42` with an oracle
answering `True`. -/
theorem main_even_odd_output_witness :
    (mainRun oracleTrue noEnv flags42).exitCode = 0 ∧
    (if true then evenLine (isEvenArgsOf noEnv flags42).number
      else oddLine (isEvenArgsOf noEnv flags42).number) ∈ (mainRun oracleTrue noEnv flags42).stdout ∧
    (mainRun oracleTrue noEnv flags42).stderr = [] :=
  main_even_odd_output oracleTrue noEnv flags42 true rfl

/-- Claim C2: with no overriding flag, `main` passes the `is_even`
call exactly `model="gpt-3.5-turbo"`, `api_key=None`, `base_url=None`
together with the normalized positional argument; supplying `--model`,
`--api-key` or `--base-url` overrides exactly the corresponding field
of the call and no other; and the single oracle call of `main` is made
at exactly that tuple. -/
theorem main_flag_frame (env : PEnv) (f : CLIFlags) (num : String) (vb : Bool) (m k u : String) :
    isEvenArgsOf env { number := num, model := none, api_key := none, base_url := none, verbose := vb } =
      { number := parseNumberValue num, model := "gpt-3.5-turbo", api_key := none, base_url := none } ∧
    isEvenArgsOf env { f with model := some m } = { isEvenArgsOf env f with model := m } ∧
    isEvenArgsOf env { f with api_key := some k } = { isEvenArgsOf env f with api_key := some k } ∧
    isEvenArgsOf env { f with base_url := some u } = { isEvenArgsOf env f with base_url := some u } ∧
    (∀ oracle : Oracle,
      mainRun oracle env f =
        mainRun (fun _ _ _ _ => oracle (isEvenArgsOf env f).number (isEvenArgsOf env f).model
          (isEvenArgsOf env f).api_key (isEvenArgsOf env f).base_url) env f) := by
  refine ⟨rfl, rfl, rfl, rfl, fun oracle => ?_⟩
  rw [mainRun_eq_spec, mainRun_eq_spec]

/-- Claim C3: for every input string whose conversion to a
double-precision floating point value succeeds and yields a value with
no fractional part, `parse_number` returns an integer — not a float —
and that integer equals the converted double exactly. -/
theorem parse_number_integral (s : String) (v : PyF64)
    (h1 : pyFloat64OfString s = some v) (h2 : f64IsInteger v = true) :
    parse_number_f64 s = Except.ok (PyVal64.int (f64IntValue v)) ∧
    (f64IntValue v : ℚ) = f64ToRat v := by
  constructor
  · have hex : pyFloat64Exc s = Except.ok v := by
      unfold pyFloat64Exc; rw [h1]
    have hto : f64ToIntExc v = Except.ok (f64IntValue v) := by
      cases v with
      | finite sign m q => rfl
      | inf neg => simp [f64IsInteger] at h2
      | nan => simp [f64IsInteger] at h2
    unfold parse_number_f64
    rw [hex]
    simp [h2, hto]
  · cases v with
    | inf neg => simp [f64IsInteger] at h2
    | nan => simp [f64IsInteger] at h2
    | finite sign m q =>
      by_cases hq : 0 ≤ q
      · have he : (2 : ℚ) ^ q = (2 : ℚ) ^ q.toNat := by
          rw [← zpow_natCast, Int.toNat_of_nonneg hq]
        simp only [f64IntValue, f64ToRat, if_pos hq, he]
        cases sign <;> simp
      · have hmod : m % 2 ^ (-q).toNat = 0 := by
          have h3 := h2
          simp [f64IsInteger, hq] at h3
          exact h3
        obtain ⟨c, hc⟩ := Nat.dvd_of_mod_eq_zero hmod
        have hpow : (0 : ℕ) < 2 ^ (-q).toNat := by positivity
        have hdiv : m / 2 ^ (-q).toNat = c := by
          rw [hc]; exact Nat.mul_div_cancel_left c hpow
        have hq2 : (2 : ℚ) ^ q = ((2 : ℚ) ^ (-q).toNat)⁻¹ := by
          rw [← zpow_natCast (2 : ℚ) (-q).toNat,
            Int.toNat_of_nonneg (by omega : (0 : ℤ) ≤ -q), ← zpow_neg, neg_neg]
        have h2k : ((2 : ℚ) ^ (-q).toNat) ≠ 0 := by positivity
        simp only [f64IntValue, f64ToRat, if_neg hq, hdiv, hq2]
        rw [hc]
        cases sign <;> (push_cast; field_simp; try ring)

/-- Witness for C3 at the four literals named by the specification,
plus three inputs at the binary64 boundary: an odd integer literal
above `2 ^ 53` whose double rounds to the neighbouring even integer,
a half-integer literal whose double is integral by ties-to-even, and
a literal that underflows to integral zero. -/
theorem parse_number_integral_witness :
    parse_number_f64 "42" = Except.ok (PyVal64.int 42) ∧
    parse_number_f64 "-17" = Except.ok (PyVal64.int (-17)) ∧
    parse_number_f64 "0" = Except.ok (PyVal64.int 0) ∧
    parse_number_f64 "10.0" = Except.ok (PyVal64.int 10) ∧
    parse_number_f64 "9007199254740993" = Except.ok (PyVal64.int 9007199254740992) ∧
    parse_number_f64 "4503599627370497.5" = Except.ok (PyVal64.int 4503599627370498) ∧
    parse_number_f64 "1e-400" = Except.ok (PyVal64.int 0) := by
  refine ⟨?_, ?_, ?_, ?_, ?_, ?_, ?_⟩
  · have h := (parse_number_integral "42"
      (PyF64.finite false 5910974510923776 (-47)) (by decide) (by decide)).1
    rw [h]; decide
  · have h := (parse_number_integral "-17"
      (PyF64.finite true 4785074604081152 (-48)) (by decide) (by decide)).1
    rw [h]; decide
  · have h := (parse_number_integral "0"
      (PyF64.finite false 0 0) (by decide) (by decide)).1
    rw [h]; decide
  · have h := (parse_number_integral "10.0"
      (PyF64.finite false 5629499534213120 (-49)) (by decide) (by decide)).1
    rw [h]; decide
  · have h := (parse_number_integral "9007199254740993"
      (PyF64.finite false 4503599627370496 1) (by decide) (by decide)).1
    rw [h]; decide
  · have h := (parse_number_integral "4503599627370497.5"
      (PyF64.finite false 4503599627370498 0) (by decide) (by decide)).1
    rw [h]; decide
  · have h := (parse_number_integral "1e-400"
      (PyF64.finite false 0 0) (by decide) (by decide)).1
    rw [h]; decide

/-- Claim C4: when `float(value)` fails, `parse_number` returns the
original string unchanged, surrounding quote characters included. -/
theorem parse_number_nonnumeric (s : String) (h : pyFloatOfString s = none) :
    parse_number s = Except.ok (PyVal.str s) := by
  have hex : pyFloatExc s = Except.error (PyError.valueError "could not convert string to float") := by
    unfold pyFloatExc; rw [h]
  unfold parse_number
  rw [hex]

/-- Witness for C4 at the four strings named by the specification. -/
theorem parse_number_nonnumeric_witness :
    parse_number "\"17\"" = Except.ok (PyVal.str "\"17\"") ∧
    parse_number "hello" = Except.ok (PyVal.str "hello") ∧
    parse_number "42abc" = Except.ok (PyVal.str "42abc") ∧
    parse_number "" = Except.ok (PyVal.str "") :=
  ⟨parse_number_nonnumeric "\"17\"" (by decide), parse_number_nonnumeric "hello" (by decide),
    parse_number_nonnumeric "42abc" (by decide), parse_number_nonnumeric "" (by decide)⟩

/-- Counterexample to C5: with both conventional environment variables
set and neither flag given, the option layer still passes `None` for
the credential and the endpoint — the environment is not consulted. -/
theorem main_env_not_consumed_cex :
    envWithCreds "OPENAI_API_KEY" = some "sk-env-credential" ∧
    envWithCreds "OPENAI_BASE_URL" = some "http://env-endpoint" ∧
    flags42.api_key = none ∧ flags42.base_url = none ∧
    (isEvenArgsOf envWithCreds flags42).api_key = none ∧
    (isEvenArgsOf envWithCreds flags42).base_url = none := by
  refine ⟨by decide, by decide, rfl, rfl, rfl, rfl⟩

/-- Claim C5 (amended): when the `--api-key` flag (respectively the
`--base-url` flag) is absent, the credential (respectively endpoint)
passed to the inference client is `None`, for every process
environment: the option-parsing layer consumes no environment
variable, and any environment fallback happens only inside the
external client. -/
theorem main_absent_flags_pass_none (env : PEnv) (f : CLIFlags)
    (hk : f.api_key = none) (hu : f.base_url = none) :
    (isEvenArgsOf env f).api_key = none ∧ (isEvenArgsOf env f).base_url = none :=
  ⟨hk, hu⟩

/-- Witness for the amended C5 in an environment that sets both
variables. -/
theorem main_absent_flags_pass_none_witness :
    (isEvenArgsOf envWithCreds flags42).api_key = none ∧
    (isEvenArgsOf envWithCreds flags42).base_url = none :=
  main_absent_flags_pass_none envWithCreds flags42 rfl rfl

/-- Claim C6: when the external `is_even` call raises a generic
exception, `main` returns exit code 1, the first line on standard
error is the error-marked message, and the diagnostic trace appears on
standard error exactly when verbose mode is enabled. -/
theorem main_generic_error (oracle : Oracle) (env : PEnv) (f : CLIFlags) (m : String)
    (h : oracle (isEvenArgsOf env f).number (isEvenArgsOf env f).model
      (isEvenArgsOf env f).api_key (isEvenArgsOf env f).base_url = OracleOutcome.exc m) :
    (mainRun oracle env f).exitCode = 1 ∧
    (mainRun oracle env f).stderr.head? = some (errorLine m) ∧
    (traceLine m ∈ (mainRun oracle env f).stderr ↔ f.verbose = true) := by
  rw [mainRun_eq_spec, h]
  refine ⟨rfl, rfl, ?_⟩
  cases hv : f.verbose <;> simp [hv, traceLine_ne_errorLine m]

/-- Witness for C6 at the invocation `isnt-that-odd 42` with an oracle
raising `API Error`. -/
theorem main_generic_error_witness :
    (mainRun oracleBoom noEnv flags42).exitCode = 1 ∧
    (mainRun oracleBoom noEnv flags42).stderr.head? = some (errorLine "API Error") ∧
    (traceLine "API Error" ∈ (mainRun oracleBoom noEnv flags42).stderr ↔ flags42.verbose = true) :=
  main_generic_error oracleBoom noEnv flags42 "API Error" rfl

/-- Claim C7: when the run is interrupted by the user, `main` returns
the distinguished exit code 130, prints the distinct cancellation
message, and writes nothing — in particular no stack trace — to
standard error. -/
theorem main_cancellation (oracle : Oracle) (env : PEnv) (f : CLIFlags)
    (h : oracle (isEvenArgsOf env f).number (isEvenArgsOf env f).model
      (isEvenArgsOf env f).api_key (isEvenArgsOf env f).base_url = OracleOutcome.keyboardInterrupt) :
    (mainRun oracle env f).exitCode = 130 ∧
    cancelLine ∈ (mainRun oracle env f).stdout ∧
    (mainRun oracle env f).stderr = [] := by
  rw [mainRun_eq_spec, h]
  simp

/-- Witness for C7 at the invocation `isnt-that-odd 42` with an
interrupted oracle. -/
theorem main_cancellation_witness :
    (mainRun oracleCtrlC noEnv flags42).exitCode = 130 ∧
    cancelLine ∈ (mainRun oracleCtrlC noEnv flags42).stdout ∧
    (mainRun oracleCtrlC noEnv flags42).stderr = [] :=
  main_cancellation oracleCtrlC noEnv flags42 rfl

/-- Claim C8: `parse_number` never raises: on every input string it
returns a value — integer, float, or the string itself. -/
theorem parse_number_never_raises (s : String) : ∃ v, parse_number s = Except.ok v :=
  parse_number_isOk s

/-- Claim C9: for every input, flag set and oracle behaviour, the runs
with and without `--verbose` return the same exit code, the
non-verbose standard output is a suffix of the verbose one, and the
non-verbose standard error is a prefix of the verbose one: verbose
mode only adds diagnostic lines and changes no decision. -/
theorem main_verbose_noninterference (oracle : Oracle) (env : PEnv) (f : CLIFlags) :
    (mainRun oracle env { f with verbose := true }).exitCode =
      (mainRun oracle env { f with verbose := false }).exitCode ∧
    (∃ pre, (mainRun oracle env { f with verbose := true }).stdout =
      pre ++ (mainRun oracle env { f with verbose := false }).stdout) ∧
    (∃ ext, (mainRun oracle env { f with verbose := true }).stderr =
      (mainRun oracle env { f with verbose := false }).stderr ++ ext) := by
  rw [mainRun_eq_spec, mainRun_eq_spec]
  have hct : isEvenArgsOf env { f with verbose := true } = isEvenArgsOf env f := rfl
  have hcf : isEvenArgsOf env { f with verbose := false } = isEvenArgsOf env f := rfl
  rw [hct, hcf]
  cases hoc : oracle (isEvenArgsOf env f).number (isEvenArgsOf env f).model
      (isEvenArgsOf env f).api_key (isEvenArgsOf env f).base_url with
  | ok b =>
    cases b <;>
      exact ⟨rfl,
        ⟨[checkingLine (isEvenArgsOf env f).number, modelLine (isEvenArgsOf env f).model], by simp⟩,
        ⟨[], by simp⟩⟩
  | keyboardInterrupt =>
    exact ⟨rfl,
      ⟨[checkingLine (isEvenArgsOf env f).number, modelLine (isEvenArgsOf env f).model], by simp⟩,
      ⟨[], by simp⟩⟩
  | exc m =>
    exact ⟨rfl,
      ⟨[checkingLine (isEvenArgsOf env f).number, modelLine (isEvenArgsOf env f).model], by simp⟩,
      ⟨[traceLine m], by simp⟩⟩

/-- Claim C10: a string accepted by `float` conversion as an infinity
or `nan` — which are exactly the accepted strings that are not decimal
or integer literals — makes `parse_number` return that floating-point
value, not the original string. -/
theorem parse_number_inf_nan (s : String) (v : PyFloatVal)
    (h1 : pyFloatOfString s = some v)
    (h2 : v = PyFloatVal.nan ∨ v = PyFloatVal.inf false ∨ v = PyFloatVal.inf true) :
    parse_number s = Except.ok (PyVal.float v) := by
  have hex : pyFloatExc s = Except.ok v := by
    unfold pyFloatExc; rw [h1]
  have hni : floatIsInteger v = false := by
    rcases h2 with h | h | h <;> rw [h] <;> rfl
  unfold parse_number
  rw [hex]
  simp [hni]

/-- Witness for C10 at signed and case variants of `inf`, `Infinity`
and `nan`. -/
theorem parse_number_inf_nan_witness :
    parse_number "inf" = Except.ok (PyVal.float (PyFloatVal.inf false)) ∧
    parse_number "Infinity" = Except.ok (PyVal.float (PyFloatVal.inf false)) ∧
    parse_number "nan" = Except.ok (PyVal.float PyFloatVal.nan) ∧
    parse_number "-inf" = Except.ok (PyVal.float (PyFloatVal.inf true)) ∧
    parse_number "+NaN" = Except.ok (PyVal.float PyFloatVal.nan) ∧
    parse_number "-Infinity" = Except.ok (PyVal.float (PyFloatVal.inf true)) :=
  ⟨parse_number_inf_nan "inf" _ (by decide) (Or.inr (Or.inl rfl)),
    parse_number_inf_nan "Infinity" _ (by decide) (Or.inr (Or.inl rfl)),
    parse_number_inf_nan "nan" _ (by decide) (Or.inl rfl),
    parse_number_inf_nan "-inf" _ (by decide) (Or.inr (Or.inr rfl)),
    parse_number_inf_nan "+NaN" _ (by decide) (Or.inl rfl),
    parse_number_inf_nan "-Infinity" _ (by decide) (Or.inr (Or.inr rfl))⟩
